import Mathlib

/-!
Shallow embedding of `src/mod.ts` of the `clipboard` repository: a Deno
module that reads and writes the system clipboard by spawning external
commands (`xsel`/`xclip`, `pbpaste`/`pbcopy`, `powershell`).

The host runtime facilities (process spawning, the `TextDecoder`) are
external collaborators of the module; they are modelled as explicit
parameters (an `Env` carrying the probe results, outcome oracles for spawned
processes, and a `decode` function standing for the module-level
`TextDecoder`). The `TextEncoder` is modelled by Lean's UTF-8 encoding of
strings, which is exactly what `TextEncoder.encode` produces.
-/

namespace ClipboardMod

/-- The `OperatingSystem` union type of `mod.ts` (the closed enumeration of
`Deno.build.os` values used by the module). -/
inductive OperatingSystem where
  | windows
  | linux
  | darwin
  | freebsd
  | netbsd
  | aix
  | solaris
  | illumos
deriving DecidableEq, Repr

/-- The string form of an `OperatingSystem` value, as `Deno.build.os`
yields it and as a template literal interpolates it. -/
def osName : OperatingSystem → String
  | .windows => "windows"
  | .linux => "linux"
  | .darwin => "darwin"
  | .freebsd => "freebsd"
  | .netbsd => "netbsd"
  | .aix => "aix"
  | .solaris => "solaris"
  | .illumos => "illumos"

/-- Outcome of `await checkCommand.output()` for a probe process: either the
spawn rejected with an exception (its message), or the process completed
with an exit code. -/
inductive ProbeOutcome where
  | spawnError (msg : String)
  | completed (code : Int)
deriving DecidableEq, Repr

/-- The host environment seen by the module: the build OS reported by
`Deno.build.os` and, for each command line `name :: args`, the outcome of
spawning it as a probe process. -/
structure Env where
  buildOS : OperatingSystem
  run : List String → ProbeOutcome

/-- The probe command line chosen inside `commandExists`: `where` on
windows, `which` elsewhere (`Deno.build.os === "windows" ? ... : ...`). -/
def checkCommand (env : Env) (command : String) : List String :=
  if env.buildOS = OperatingSystem.windows then ["where", command]
  else ["which", command]

/-- The body of `commandExists` without its `try/catch`: a spawn failure is
an exception (`Except.error`), otherwise the result is `code === 0`. -/
def commandExistsRaw (env : Env) (command : String) : Except String Bool :=
  match env.run (checkCommand env command) with
  | .spawnError msg => .error msg
  | .completed code => .ok (code == 0)

/-- `commandExists` of `mod.ts`: the body wrapped in `try/catch`, the catch
clause turning any exception into `false`. -/
def commandExists (env : Env) (command : String) : Bool :=
  match commandExistsRaw env command with
  | .error _ => false
  | .ok b => b

/-- The global replacement `data.replace(/\r/g, "")`: replacing `\r` by the
empty string everywhere removes every carriage-return character. -/
def stripCR (s : String) : String :=
  String.mk (s.data.filter (fun c => c ≠ '\r'))

/-- The replacement `data.replace(/\n$/, "")`: without the multiline flag,
`$` anchors at the very end of the input, so the one possible match is a
final newline character, which the replacement deletes. -/
def dropTrailingLF (s : String) : String :=
  if s.data.getLast? = some '\n' then String.mk s.data.dropLast else s

/-- The post-processing closure registered on the windows entry:
`(data) => data.replace(/\r/g, "").replace(/\n$/, "")`. -/
def windowsPostProcess (s : String) : String :=
  dropTrailingLF (stripCR s)

/-- The `ClipboardImplementation` class: OS tag, read and write command
specs, and the optional post-processing function. -/
structure ClipboardImplementation where
  os : OperatingSystem
  readCommand : List String
  writeCommand : List String
  postProcess : Option (String → String)

/-- `getImplementations` of `mod.ts`: the `ClipboardMap` object literal,
keyed by `linux`, `darwin` and `windows`; every other OS is absent
(`none`). The linux entry probes `commandExists("xsel")` once for the read
command and once for the write command, exactly as the source awaits it
twice. -/
def getImplementations (env : Env) : OperatingSystem → Option ClipboardImplementation
  | .linux => some
      { os := .linux
        readCommand :=
          if commandExists env "xsel" then ["xsel", "-b", "-o"]
          else ["xclip", "-selection", "clipboard", "-o"]
        writeCommand :=
          if commandExists env "xsel" then ["xsel", "-b", "-i"]
          else ["xclip", "-selection", "clipboard", "-i"]
        postProcess := none }
  | .darwin => some
      { os := .darwin
        readCommand := ["pbpaste"]
        writeCommand := ["pbcopy"]
        postProcess := none }
  | .windows => some
      { os := .windows
        readCommand := ["powershell", "-noprofile", "-command", "Get-Clipboard"]
        writeCommand := ["powershell", "-noprofile", "-command", "$input|Set-Clipboard"]
        postProcess := some windowsPostProcess }
  | _ => none

/-- The `Clipboard` facade class: its single private field `impl`. -/
structure Clipboard where
  impl : ClipboardImplementation

/-- The `Clipboard` constructor: look the OS up in the map; if absent,
`throw new Error("Clipboard: unsupported OS: " + os)`; otherwise bind the
matched implementation. -/
def Clipboard.construct (os : OperatingSystem)
    (implementations : OperatingSystem → Option ClipboardImplementation) :
    Except String Clipboard :=
  match implementations os with
  | none => .error ("Clipboard: unsupported OS: " ++ osName os)
  | some impl => .ok ⟨impl⟩

/-- The module-level `TextEncoder`: `TextEncoder.encode` always produces
the UTF-8 encoding of its input, modelled by Lean's `String.toUTF8`. -/
def textEncode (s : String) : List UInt8 :=
  s.toUTF8.data.toList

/-- Outcome of `await command.output()` on the read path: either the
promise rejected (spawn or completion failure, with the exception's
message), or the process completed, yielding its exit code and the
captured stdout and stderr byte streams. -/
inductive ReadOutcome where
  | spawnError (msg : String)
  | completed (code : Int) (stdout : List UInt8) (stderr : List UInt8)
deriving DecidableEq, Repr

/-- `ClipboardImplementation.readText`: spawn the read command, decode the
captured stdout with the module-level `TextDecoder` (the black-box `decode`
parameter), apply `postProcess` when present; the catch clause rethrows as
`Error("Failed to read from clipboard: " + message)`. Only `stdout` is
destructured from the output; `code` and `stderr` are never consulted. -/
def readText (decode : List UInt8 → String) (impl : ClipboardImplementation)
    (outcome : ReadOutcome) : Except String String :=
  match outcome with
  | .spawnError msg => .error ("Failed to read from clipboard: " ++ msg)
  | .completed _ stdout _ =>
      let text := decode stdout
      match impl.postProcess with
      | some f => .ok (f text)
      | none => .ok text

/-- Outcome of the write path's sequence of awaited steps
(`spawn`, `writer.write`, `writer.close`, `child.status`): the first step
to fail determines the exception, otherwise the child terminates with an
exit status. -/
inductive WriteOutcome where
  | spawnError (msg : String)
  | writeError (msg : String)
  | closeError (msg : String)
  | terminated (status : Int)
deriving DecidableEq, Repr

/-- One observable step of the write path, in the order the source awaits
them. -/
inductive WriteEvent where
  | spawn (cmd : List String)
  | stdinWrite (bytes : List UInt8)
  | stdinClose
  | awaitStatus
deriving DecidableEq, Repr

/-- `ClipboardImplementation.writeText`: spawn the write command with a
piped stdin, write `encoder.encode(data)` to the stdin writer, close it,
await `child.status`. The result pairs the trace of steps that ran with
the returned value; the catch clause rethrows any failure as
`Error("Failed to read from clipboard: " + message)` — the same (read)
message text as the read path. -/
def writeText (impl : ClipboardImplementation) (data : String)
    (outcome : WriteOutcome) : List WriteEvent × Except String Unit :=
  match outcome with
  | .spawnError msg =>
      ([.spawn impl.writeCommand],
        .error ("Failed to read from clipboard: " ++ msg))
  | .writeError msg =>
      ([.spawn impl.writeCommand, .stdinWrite (textEncode data)],
        .error ("Failed to read from clipboard: " ++ msg))
  | .closeError msg =>
      ([.spawn impl.writeCommand, .stdinWrite (textEncode data), .stdinClose],
        .error ("Failed to read from clipboard: " ++ msg))
  | .terminated _ =>
      ([.spawn impl.writeCommand, .stdinWrite (textEncode data), .stdinClose,
        .awaitStatus],
        .ok ())

/-- The module-scope state left behind by the fire-and-forget async block
at the bottom of `mod.ts`: whether `console.warn` ran, the error thrown
inside the block (an unhandled rejection) if any, and the values of the
`let clipboard / readText / writeText` bindings. A binding that the block
never reached stays `none` (`undefined` in the source). -/
structure ModuleState where
  warned : Bool
  initError : Option String
  clipboard : Option Clipboard
  readTextBound : Bool
  writeTextBound : Bool

/-- The async block at module load: build the implementations, warn when
`implementations[Deno.build.os]` is falsy, then construct the `Clipboard`
facade. If the constructor throws, the block stops there: the exported
`clipboard`, `readText` and `writeText` bindings are never assigned. -/
def moduleInit (env : Env) : ModuleState :=
  let implementations := getImplementations env
  let os := env.buildOS
  let warned := (implementations os).isNone
  match Clipboard.construct os implementations with
  | .error e =>
      { warned := warned, initError := some e, clipboard := none,
        readTextBound := false, writeTextBound := false }
  | .ok c =>
      { warned := warned, initError := none, clipboard := some c,
        readTextBound := true, writeTextBound := true }

/-- What a caller of the exported `readText` / `writeText` observes: if the
binding was never assigned it is still `undefined`, and calling it throws
`TypeError: ... is not a function`; otherwise the call delegates to the
bound implementation. -/
inductive ExportedCall where
  | notAFunction
  | delegate (impl : ClipboardImplementation)

/-- Calling the exported `readText` (or `writeText`) after module load:
both are bound if and only if the facade was constructed, in which case
they delegate to its single bound implementation. -/
def callExported (st : ModuleState) : ExportedCall :=
  match st.clipboard with
  | none => .notAFunction
  | some c => .delegate c.impl

/-- Shorthand for the conditional application of a registered
post-processing function, as the body of `readText` performs it
(`if (this.postProcess) text = this.postProcess(text)`). -/
def applyPost (pp : Option (String → String)) (text : String) : String :=
  match pp with
  | some f => f text
  | none => text

/-- The observable outcome of calling an exported `let` binding that the
async block may or may not have assigned: an unassigned binding is still
`undefined`, and calling it throws `TypeError: <name> is not a function`;
an assigned binding raises nothing at this point. -/
def callBindingError (bound : Bool) (name : String) : Option String :=
  if bound then none else some (name ++ " is not a function")

/-- A concrete host: freebsd build, every probe process exits nonzero. -/
def envFreeBSD : Env :=
  { buildOS := .freebsd, run := fun _ => .completed 1 }

/-- A concrete host: darwin build, every probe spawn fails. -/
def envProbeFail : Env :=
  { buildOS := .darwin, run := fun _ => .spawnError "EPERM" }

/-- A concrete host: linux build, every probe process exits 0 (so `xsel`
is reported present). -/
def envXsel : Env :=
  { buildOS := .linux, run := fun _ => .completed 0 }

/-- A concrete host: linux build, every probe process exits 1 (so `xsel`
is reported absent). -/
def envNoXsel : Env :=
  { buildOS := .linux, run := fun _ => .completed 1 }

/-- The darwin registry entry, spelled out. -/
def darwinImpl : ClipboardImplementation :=
  { os := .darwin
    readCommand := ["pbpaste"]
    writeCommand := ["pbcopy"]
    postProcess := none }

/-- The windows registry entry, spelled out. -/
def windowsImpl : ClipboardImplementation :=
  { os := .windows
    readCommand := ["powershell", "-noprofile", "-command", "Get-Clipboard"]
    writeCommand := ["powershell", "-noprofile", "-command", "$input|Set-Clipboard"]
    postProcess := some windowsPostProcess }

/-- C4: `commandExists` never raises — any exception raised by the probe
(`commandExistsRaw`'s error) is absorbed by the catch clause and becomes
`false`; and the result is `true` exactly when the probe process completes
with exit code 0, so a guaranteed-absent command (probe exits nonzero)
yields `false`. -/
theorem commandExists_never_raises (env : Env) (command : String) :
    (∀ msg, commandExistsRaw env command = .error msg →
      commandExists env command = false) ∧
    (commandExists env command = true ↔
      env.run (checkCommand env command) = .completed 0) := by
  constructor
  · intro msg h
    unfold commandExists
    rw [h]
  · unfold commandExists commandExistsRaw
    cases h : env.run (checkCommand env command) with
    | spawnError m => simp
    | completed code => simp

/-- Witness for C4: on a host where every probe spawn fails with `EPERM`,
`commandExists` for an absent command returns `false` rather than
raising. -/
theorem commandExists_never_raises_witness :
    commandExists envProbeFail "surely-absent-cmd" = false :=
  (commandExists_never_raises envProbeFail "surely-absent-cmd").1 "EPERM" rfl

/-- C3: the windows post-processing function leaves no carriage-return
character in its output, removes exactly the one trailing newline when the
CR-stripped text ends in one, and on the raw decoded text
`"line1\r\nline2\r\n"` yields `"line1\nline2"`; it is the post-process the
registry's windows entry registers. -/
theorem windowsPostProcess_spec :
    (∀ env, getImplementations env OperatingSystem.windows = some windowsImpl ∧
      windowsImpl.postProcess = some windowsPostProcess) ∧
    (∀ s, '\r' ∉ (windowsPostProcess s).data) ∧
    (∀ s t, (stripCR s).data = t ++ ['\n'] → (windowsPostProcess s).data = t) ∧
    windowsPostProcess "line1\r\nline2\r\n" = "line1\nline2" := by
  refine ⟨fun env => ⟨rfl, rfl⟩, ?_, ?_, by decide⟩
  · intro s hmem
    unfold windowsPostProcess dropTrailingLF at hmem
    have hfilter : '\r' ∉ (stripCR s).data := by
      unfold stripCR
      simp
    by_cases h : (stripCR s).data.getLast? = some '\n'
    · rw [if_pos h] at hmem
      exact hfilter (List.dropLast_subset _ hmem)
    · rw [if_neg h] at hmem
      exact hfilter hmem
  · intro s t h
    unfold windowsPostProcess dropTrailingLF
    rw [h]
    simp

/-- Witness for C3: on `"a\r\n"`, the CR-stripped text is `"a\n"`, so the
post-process returns `"a"`; and the concrete windows example holds. -/
theorem windowsPostProcess_spec_witness :
    (windowsPostProcess "a\r\n").data = "a".data ∧
    windowsPostProcess "line1\r\nline2\r\n" = "line1\nline2" :=
  ⟨windowsPostProcess_spec.2.2.1 "a\r\n" "a".data (by decide),
   windowsPostProcess_spec.2.2.2⟩

/-- C5: the registry's linux entry is built from the `xsel` probe — when
`commandExists` reports `xsel` present the entry carries the `xsel`
invocation forms (`-b -o` to read, `-b -i` to write, the `-b` clipboard
buffer), and when it reports `xsel` absent the entry carries exactly the
`xclip` fallback forms targeting the `clipboard` selection. -/
theorem linux_entry_spec (env : Env) :
    (commandExists env "xsel" = true →
      getImplementations env OperatingSystem.linux = some
        { os := .linux
          readCommand := ["xsel", "-b", "-o"]
          writeCommand := ["xsel", "-b", "-i"]
          postProcess := none }) ∧
    (commandExists env "xsel" = false →
      getImplementations env OperatingSystem.linux = some
        { os := .linux
          readCommand := ["xclip", "-selection", "clipboard", "-o"]
          writeCommand := ["xclip", "-selection", "clipboard", "-i"]
          postProcess := none }) := by
  constructor <;> intro h <;> simp [getImplementations, h]

/-- Witness for C5: concrete hosts on which the probe reports `xsel`
present (entry uses `xsel` forms) and absent (entry uses `xclip` forms). -/
theorem linux_entry_spec_witness :
    getImplementations envXsel OperatingSystem.linux = some
      { os := .linux
        readCommand := ["xsel", "-b", "-o"]
        writeCommand := ["xsel", "-b", "-i"]
        postProcess := none } ∧
    getImplementations envNoXsel OperatingSystem.linux = some
      { os := .linux
        readCommand := ["xclip", "-selection", "clipboard", "-o"]
        writeCommand := ["xclip", "-selection", "clipboard", "-i"]
        postProcess := none } :=
  ⟨(linux_entry_spec envXsel).1 (by decide),
   (linux_entry_spec envNoXsel).2 (by decide)⟩

/-- C6: for every enumerated OS without a registry entry (freebsd, netbsd,
aix, solaris, illumos), the `Clipboard` constructor throws
`Clipboard: unsupported OS: <os>`, naming that operating system. -/
theorem unsupported_os_spec (env : Env) (os : OperatingSystem)
    (h : os = OperatingSystem.freebsd ∨ os = OperatingSystem.netbsd ∨
      os = OperatingSystem.aix ∨ os = OperatingSystem.solaris ∨
      os = OperatingSystem.illumos) :
    Clipboard.construct os (getImplementations env) =
      .error ("Clipboard: unsupported OS: " ++ osName os) := by
  rcases h with h | h | h | h | h <;> subst h <;> rfl

/-- Witness for C6: on the freebsd host, construction fails with the
message naming freebsd. -/
theorem unsupported_os_spec_witness :
    Clipboard.construct OperatingSystem.freebsd (getImplementations envFreeBSD) =
      .error ("Clipboard: unsupported OS: " ++ osName OperatingSystem.freebsd) :=
  unsupported_os_spec envFreeBSD OperatingSystem.freebsd (Or.inl rfl)

/-- C7: for every supported OS (linux, darwin, windows) and every outcome
of the existence probe, facade construction succeeds and binds exactly the
registry entry, whose read and write command specs are both non-empty; and
the registry never contains an entry with an empty command spec. -/
theorem supported_os_spec :
    (∀ env os, (os = OperatingSystem.linux ∨ os = OperatingSystem.darwin ∨
        os = OperatingSystem.windows) →
      ∃ impl, getImplementations env os = some impl ∧
        Clipboard.construct os (getImplementations env) = .ok ⟨impl⟩ ∧
        impl.readCommand ≠ [] ∧ impl.writeCommand ≠ []) ∧
    (∀ env os impl, getImplementations env os = some impl →
      impl.readCommand ≠ [] ∧ impl.writeCommand ≠ []) := by
  constructor
  · rintro env os (rfl | rfl | rfl)
    · refine ⟨_, rfl, rfl, ?_, ?_⟩ <;>
        (cases h : commandExists env "xsel" <;> simp [h])
    · exact ⟨_, rfl, rfl, by simp, by simp⟩
    · exact ⟨_, rfl, rfl, by simp, by simp⟩
  · intro env os impl h
    cases os
    case linux =>
      cases hx : commandExists env "xsel" <;>
        · simp [getImplementations, hx] at h
          subst h
          exact ⟨by simp, by simp⟩
    case darwin =>
      simp [getImplementations] at h
      subst h
      exact ⟨by simp, by simp⟩
    case windows =>
      simp [getImplementations] at h
      subst h
      exact ⟨by simp, by simp⟩
    all_goals simp [getImplementations] at h

/-- Witness for C7: on the probe-failing darwin host, construction for
darwin succeeds with a non-empty command pair. -/
theorem supported_os_spec_witness :
    ∃ impl, getImplementations envProbeFail OperatingSystem.darwin = some impl ∧
      Clipboard.construct OperatingSystem.darwin (getImplementations envProbeFail) =
        .ok ⟨impl⟩ ∧
      impl.readCommand ≠ [] ∧ impl.writeCommand ≠ [] :=
  supported_os_spec.1 envProbeFail OperatingSystem.darwin (Or.inr (Or.inl rfl))

/-- C2: on every failure of the write path (spawn failure, broken pipe
while writing, failure closing the pipe), `writeText` throws an error whose
message embeds the underlying cause after the text
`"Failed to read from clipboard: "` — byte-for-byte the same message the
read path produces for the same cause. -/
theorem writeText_error_spec (impl : ClipboardImplementation) (data : String)
    (msg : String) :
    (writeText impl data (WriteOutcome.spawnError msg)).2 =
      .error ("Failed to read from clipboard: " ++ msg) ∧
    (writeText impl data (WriteOutcome.writeError msg)).2 =
      .error ("Failed to read from clipboard: " ++ msg) ∧
    (writeText impl data (WriteOutcome.closeError msg)).2 =
      .error ("Failed to read from clipboard: " ++ msg) ∧
    (∀ decode, readText decode impl (ReadOutcome.spawnError msg) =
      .error ("Failed to read from clipboard: " ++ msg)) :=
  ⟨rfl, rfl, rfl, fun _ => rfl⟩

/-- C8: on every run in which the read process completes, `readText`
returns the captured stdout bytes decoded by the module's `TextDecoder`,
with the registered post-processing function applied exactly when one is
present; on a failure to spawn or complete, it throws the error embedding
the cause after `"Failed to read from clipboard: "`. -/
theorem readText_spec (decode : List UInt8 → String)
    (impl : ClipboardImplementation) :
    (∀ code stdout stderr,
      readText decode impl (ReadOutcome.completed code stdout stderr) =
        .ok (applyPost impl.postProcess (decode stdout))) ∧
    (∀ msg, readText decode impl (ReadOutcome.spawnError msg) =
      .error ("Failed to read from clipboard: " ++ msg)) := by
  constructor
  · intro code stdout stderr
    cases hp : impl.postProcess <;> simp [readText, applyPost, hp]
  · intro msg
    rfl

/-- C9: a successful `writeText` run performs, in order, the spawn of the
write command, a single full write of the UTF-8 encoding of the input to
the child's stdin pipe, the close of that pipe, and the await of the
child's termination; it returns unit, and the exit status the child
terminates with never changes the result. -/
theorem writeText_success_spec (impl : ClipboardImplementation)
    (data : String) (status : Int) :
    writeText impl data (WriteOutcome.terminated status) =
      ([WriteEvent.spawn impl.writeCommand,
        WriteEvent.stdinWrite (textEncode data),
        WriteEvent.stdinClose,
        WriteEvent.awaitStatus], Except.ok ()) ∧
    (∀ other : Int,
      writeText impl data (WriteOutcome.terminated other) =
        writeText impl data (WriteOutcome.terminated status)) :=
  ⟨rfl, fun _ => rfl⟩

/-- C10: `readText` never consults the read command's exit code or captured
stderr — completed runs differing only in those produce identical results —
and on any registry entry a completed run with empty stdout yields the
empty string (even with a nonzero exit code), not an error. -/
theorem readText_ignores_status_spec :
    (∀ (decode : List UInt8 → String) impl code code' stdout stderr stderr',
      readText decode impl (ReadOutcome.completed code stdout stderr) =
        readText decode impl (ReadOutcome.completed code' stdout stderr')) ∧
    (∀ env os impl (decode : List UInt8 → String) code stderr,
      decode [] = "" →
      getImplementations env os = some impl →
      readText decode impl (ReadOutcome.completed code [] stderr) =
        .ok "") := by
  constructor
  · intro decode impl code code' stdout stderr stderr'
    rfl
  · intro env os impl decode code stderr hdec himpl
    cases os
    case linux =>
      cases hx : commandExists env "xsel" <;>
        · simp [getImplementations, hx] at himpl
          subst himpl
          simp [readText, hdec]
    case darwin =>
      simp [getImplementations] at himpl
      subst himpl
      simp [readText, hdec]
    case windows =>
      simp [getImplementations] at himpl
      subst himpl
      simp [readText, hdec]
      decide
    all_goals simp [getImplementations] at himpl

/-- Witness for C10: with the windows registry entry and a decoder sending
the empty byte stream to the empty string, a run that exits with code 1 and
empty stdout returns the empty string. -/
theorem readText_ignores_status_spec_witness :
    readText (fun _ => "") windowsImpl (ReadOutcome.completed 1 [] []) =
      .ok "" :=
  readText_ignores_status_spec.2 envFreeBSD OperatingSystem.windows
    windowsImpl (fun _ => "") 1 [] rfl rfl

/-- Counterexample for C1: on the freebsd host the OS has no registry
entry, yet it is false that module load raises no error and that a
subsequent call to the exported `readText` fails with the unsupported-OS
message — the async block throws (an error, not only a warning), and the
call failure message is a TypeError text, not the unsupported-OS one. -/
theorem moduleInit_unsupported_counterexample :
    getImplementations envFreeBSD envFreeBSD.buildOS = none ∧
    ¬ ((moduleInit envFreeBSD).warned = true ∧
       (moduleInit envFreeBSD).initError = none ∧
       callBindingError (moduleInit envFreeBSD).readTextBound "readText" =
         some ("Clipboard: unsupported OS: " ++ osName envFreeBSD.buildOS)) := by
  refine ⟨rfl, ?_⟩
  intro h
  exact absurd h.2.1 (by decide)

/-- C1 amended: when the current OS has no registry entry, module load
emits the diagnostic warning, but the `Clipboard` constructor then throws
the unsupported-OS error inside the fire-and-forget async block, so the
exported `clipboard`, `readText` and `writeText` bindings are never
assigned; a subsequent call to the exported `readText` fails because the
binding is still `undefined` (`TypeError: readText is not a function`),
not with an "unsupported OS" error. -/
theorem moduleInit_unsupported_spec (env : Env)
    (h : getImplementations env env.buildOS = none) :
    (moduleInit env).warned = true ∧
    (moduleInit env).initError =
      some ("Clipboard: unsupported OS: " ++ osName env.buildOS) ∧
    (moduleInit env).clipboard = none ∧
    (moduleInit env).readTextBound = false ∧
    (moduleInit env).writeTextBound = false ∧
    callBindingError (moduleInit env).readTextBound "readText" =
      some "readText is not a function" ∧
    callExported (moduleInit env) = ExportedCall.notAFunction := by
  simp [moduleInit, Clipboard.construct, h, callBindingError, callExported]

/-- Witness for C1 (amended): the freebsd host instantiation. -/
theorem moduleInit_unsupported_spec_witness :
    (moduleInit envFreeBSD).warned = true ∧
    (moduleInit envFreeBSD).initError =
      some ("Clipboard: unsupported OS: " ++ osName envFreeBSD.buildOS) ∧
    (moduleInit envFreeBSD).clipboard = none ∧
    (moduleInit envFreeBSD).readTextBound = false ∧
    (moduleInit envFreeBSD).writeTextBound = false ∧
    callBindingError (moduleInit envFreeBSD).readTextBound "readText" =
      some "readText is not a function" ∧
    callExported (moduleInit envFreeBSD) = ExportedCall.notAFunction :=
  moduleInit_unsupported_spec envFreeBSD rfl

end ClipboardMod
